import Mathlib

/-!
# OAuth2 authorization-code server (`auth-server/main.go`)

A shallow embedding of the three protocol handlers registered in `main`:
`GET /oauth2/authorize`, `GET /oauth2/consent` and `POST /oauth2/token`.

* The database handle `db` becomes an explicit value `DB` that every handler
  receives and returns.  The two tables are lists of rows; the queries the
  handlers issue (`Where(..).First`, `Create`, `Delete`) are list functions;
  the two writing statements return `none` for their error result.
* Everything a handler obtains from outside the request and the database
  (clock reads, the random code generator, the signer, a storage fault on a
  write) is an explicit argument (`ConsentEnv`, `TokenEnv`).
* A handler's HTTP answer is a value of `Response`.
-/

namespace AuthServer

/-! ## Time -/

/-- Go `time.Time` as a wall-clock instant: nanoseconds since the Unix epoch. -/
structure Time where
  nanos : Int
deriving DecidableEq, Repr

/-- Go `time.Duration` is a count of nanoseconds. -/
abbrev Duration := Int

/-- Constant `time.Hour`. -/
def Hour : Duration := 3600 * 1000000000

/-- Method `t.Add(d)`. -/
def Time.Add (t : Time) (d : Duration) : Time := ⟨t.nanos + d⟩

/-- Method `t.Unix()`: whole seconds since the epoch (rounded down). -/
def Time.Unix (t : Time) : Int := t.nanos / 1000000000

/-! ## Data model (`main.go` lines 20-64) -/

/-- Row of the client table; `ID` is the primary key, `DeletedAt` the
soft-delete tombstone (`none` for a live row). -/
structure Client where
  ID : String
  Name : String
  Website : String
  Logo : String
  RedirectURI : String
  CreatedAt : Time
  UpdatedAt : Time
  DeletedAt : Option Time
deriving DecidableEq, Repr

/-- Row of the authorization-code table; `Code` is the primary key. -/
structure AuthCode where
  Code : String
  ClientID : String
  CreatedAt : Time
deriving DecidableEq, Repr

/-- Query parameters of `/oauth2/authorize`. -/
structure AuthRequest where
  ClientID : String
  RedirectURI : String
  ResponseType : String
  Scope : String
  State : String
deriving DecidableEq, Repr

/-- Body of `/oauth2/token`. -/
structure TokenRequest where
  GrantType : String
  Code : String
  RedirectURI : String
  ClientID : String
deriving DecidableEq, Repr

/-- Success body of `/oauth2/token`. -/
structure TokenResponse where
  AccessToken : String
  TokenType : String
  ExpiresIn : Int
deriving DecidableEq, Repr

/-- Data handed to the consent template. -/
structure ConsentData where
  ClientName : String
  ClientID : String
  RedirectURI : String
  State : String
  Scope : String
deriving DecidableEq, Repr

/-- The `jwt.MapClaims` literal built by the token handler. -/
structure MapClaims where
  client_id : String
  exp : Int
  iat : Int
deriving DecidableEq, Repr

/-- The four query values read by the consent handler with `c.Query`. -/
structure ConsentQuery where
  approved : String
  state : String
  client_id : String
  redirect_uri : String
deriving DecidableEq, Repr

/-! ## Responses -/

/-- What a handler sends back.
* `json s e` is `c.Status(s).JSON(fiber.Map{"error": e})`;
* `render v d` is `c.Render(v, d)`;
* `redirect l` is `c.Redirect(l)`;
* `token b` is `c.JSON(b)` for a `TokenResponse`. -/
inductive Response where
  | json (status : Nat) (error : String)
  | render (view : String) (data : ConsentData)
  | redirect (location : String)
  | token (body : TokenResponse)
deriving DecidableEq, Repr

/-- HTTP status of a response (fiber: 200 unless `Status` was called, 302 for
`Redirect`). -/
def Response.status : Response → Nat
  | .json s _ => s
  | .render _ _ => 200
  | .redirect _ => 302
  | .token _ => 200

/-- The response renders a template (the consent prompt is the only one these
handlers render). -/
def Response.isRender : Response → Bool
  | .render _ _ => true
  | _ => false

/-- The response is a redirect. -/
def Response.isRedirect : Response → Bool
  | .redirect _ => true
  | _ => false

/-- The response carries an access token. -/
def Response.isToken : Response → Bool
  | .token _ => true
  | _ => false

/-! ## Database -/

/-- The two tables migrated by `db.AutoMigrate(&Client{}, &AuthCode{})`. -/
structure DB where
  clients : List Client
  authCodes : List AuthCode
deriving DecidableEq, Repr

/-- Primary-key constraint of the client table (`ID` is `primaryKey`). -/
def DB.clientKeysUnique (db : DB) : Prop := (db.clients.map Client.ID).Nodup

/-- Primary-key constraint of the code table (`Code` is `primaryKey`). -/
def DB.codeKeysUnique (db : DB) : Prop := (db.authCodes.map AuthCode.Code).Nodup

instance (db : DB) : Decidable db.clientKeysUnique :=
  inferInstanceAs (Decidable (List.Nodup _))

instance (db : DB) : Decidable db.codeKeysUnique :=
  inferInstanceAs (Decidable (List.Nodup _))

/-- The code table holds a row with code `k` issued to client `c`. -/
def DB.holds (db : DB) (k c : String) : Prop :=
  ∃ row ∈ db.authCodes, row.Code = k ∧ row.ClientID = c

/-- The code table holds no row with code `k`. -/
def DB.lacks (db : DB) (k : String) : Prop :=
  ∀ row ∈ db.authCodes, row.Code ≠ k

instance (db : DB) (k c : String) : Decidable (db.holds k c) :=
  inferInstanceAs (Decidable (∃ row ∈ db.authCodes, row.Code = k ∧ row.ClientID = c))

instance (db : DB) (k : String) : Decidable (db.lacks k) :=
  inferInstanceAs (Decidable (∀ row ∈ db.authCodes, row.Code ≠ k))

/-- Query `db.Where("id = ?", id).First(&client)`: the live row (tombstoned
rows are excluded from lookups) whose key is `id`; `none` stands for the
error result. -/
def DB.firstClient (db : DB) (id : String) : Option Client :=
  db.clients.find? (fun row => decide (row.ID = id) && row.DeletedAt.isNone)

/-- Query `db.Where("code = ? AND client_id = ?", code, clientID).First(&authCode)`;
`none` stands for the error result. -/
def DB.firstAuthCode (db : DB) (code clientID : String) : Option AuthCode :=
  db.authCodes.find? (fun row => decide (row.Code = code) && decide (row.ClientID = clientID))

/-- Statement `db.Delete(&authCode)`: removes the row whose primary key is
that of `authCode`.  The condition of the statement is built from the primary
key of the value passed; when that key is the zero value (the empty string)
there is no condition and the statement is refused ("WHERE conditions
required").  `none` stands for the error result, which arises from a storage
fault or from a refused statement; the table is then as it was. -/
def DB.deleteAuthCode (db : DB) (fault : Bool) (authCode : AuthCode) : Option DB :=
  if fault then none
  else if authCode.Code = "" then none
  else some
    { db with authCodes := db.authCodes.filter (fun row => decide (row.Code ≠ authCode.Code)) }

/-- Statement `db.Create(authCode)`: appends the row; `none` stands for the
error result, which arises from a storage fault or from a row with the same
primary key being present. -/
def DB.createAuthCode (db : DB) (fault : Bool) (authCode : AuthCode) : Option DB :=
  if fault then none
  else if db.authCodes.any (fun row => decide (row.Code = authCode.Code)) then none
  else some { db with authCodes := db.authCodes ++ [authCode] }

/-! ## `GET /oauth2/authorize` (lines 137-174) -/

/-- The authorize handler; `query` is the outcome of `c.QueryParser`
(`none` when parsing failed). -/
def authorizeHandler (db : DB) (query : Option AuthRequest) : Response × DB :=
  match query with
  | none => (.json 400 "Invalid request", db)
  | some authRequest =>
    if authRequest.ResponseType ≠ "code" then
      (.json 400 "unsupported_response_type", db)
    else
      match db.firstClient authRequest.ClientID with
      | none => (.json 401 "Client not found", db)
      | some client =>
        if client.RedirectURI ≠ authRequest.RedirectURI then
          (.json 401 "Invalid redirect URI", db)
        else
          (.render "consent"
            { ClientName := client.Name
              ClientID := authRequest.ClientID
              RedirectURI := authRequest.RedirectURI
              State := authRequest.State
              Scope := authRequest.Scope }, db)

/-! ## `GET /oauth2/consent` (lines 176-207) -/

/-- What the consent handler obtains from outside: the result of
`cuid.NewCrypto(rand.Reader)` (`none` for an error), the clock read
`time.Now()`, and whether the storage layer faults on the write. -/
structure ConsentEnv where
  NewCrypto : Option String
  Now : Time
  storageFault : Bool
deriving DecidableEq, Repr

/-- The consent handler. -/
def consentHandler (env : ConsentEnv) (db : DB) (q : ConsentQuery) : Response × DB :=
  if q.approved ≠ "true" then
    (.redirect (q.redirect_uri ++ "?error=access_denied&state=" ++ q.state), db)
  else
    match env.NewCrypto with
    | none => (.json 500 "Internal server error", db)
    | some code =>
      let authCode : AuthCode :=
        { Code := code, ClientID := q.client_id, CreatedAt := env.Now }
      match db.createAuthCode env.storageFault authCode with
      | none => (.json 500 "Failed to store authorization code", db)
      | some db' =>
        (.redirect (q.redirect_uri ++ "?code=" ++ code ++ "&state=" ++ q.state), db')

/-! ## `POST /oauth2/token` (lines 209-253) -/

/-- What the token handler obtains from outside: the two clock reads of the
claims literal, in evaluation order (`expClock` is the `time.Now()` of the
`"exp"` entry, `iatClock` the one of the `"iat"` entry), the signer
`token.SignedString([]byte(jwtSecret))` (`none` for an error), and whether the
storage layer faults on the delete of line 232. -/
structure TokenEnv where
  expClock : Time
  iatClock : Time
  SignedString : MapClaims → Option String
  deleteFault : Bool

/-- The claims literal of lines 235-239. -/
def tokenClaims (env : TokenEnv) (tokenRequest : TokenRequest) : MapClaims :=
  { client_id := tokenRequest.ClientID
    exp := (env.expClock.Add (Hour * 24)).Unix
    iat := env.iatClock.Unix }

/-- The token handler; `body` is the outcome of `c.BodyParser`
(`none` when parsing failed).  Line 232 issues the delete and does not look at
its result, so after an error result the handler carries on with the database
as it was. -/
def tokenHandler (env : TokenEnv) (db : DB) (body : Option TokenRequest) : Response × DB :=
  match body with
  | none => (.json 400 "invalid_request", db)
  | some tokenRequest =>
    if tokenRequest.GrantType ≠ "authorization_code" then
      (.json 400 "unsupported_grant_type", db)
    else
      match db.firstAuthCode tokenRequest.Code tokenRequest.ClientID with
      | none => (.json 400 "invalid_grant", db)
      | some authCode =>
        let db' := (db.deleteAuthCode env.deleteFault authCode).getD db
        match env.SignedString (tokenClaims env tokenRequest) with
        | none => (.json 500 "server_error", db')
        | some tokenString =>
          (.token { AccessToken := tokenString, TokenType := "Bearer", ExpiresIn := 86400 }, db')

/-! ## The server as a sequential machine -/

/-- One request to the server, together with what its handler obtains from
outside. -/
inductive Call where
  | authorize (query : Option AuthRequest)
  | consent (env : ConsentEnv) (q : ConsentQuery)
  | token (env : TokenEnv) (body : Option TokenRequest)

/-- Route a request to its handler. -/
def Call.handle (db : DB) : Call → Response × DB
  | .authorize query => authorizeHandler db query
  | .consent env q => consentHandler env db q
  | .token env body => tokenHandler env db body

/-- The request is a consent approval (`approved` is exactly `"true"`). -/
def Call.isApproval : Call → Bool
  | .consent _ q => decide (q.approved = "true")
  | _ => false

/-- Database after the server handled `calls` one after another. -/
def serve (db : DB) (calls : List Call) : DB :=
  calls.foldl (fun d call => (call.handle d).2) db

/-! ## Two token requests in flight

The token handler issues two database statements, the lookup of line 225 and
the delete of line 232.  `TokenTask` records how far one in-flight request
has got; a scheduler decides which request executes its next statement. -/

/-- Progress of one in-flight token request. -/
inductive TokenTask where
  | pending (body : Option TokenRequest)
  | found (tokenRequest : TokenRequest) (authCode : AuthCode)
  | done (resp : Response)
deriving DecidableEq, Repr

/-- Lines 210-229: everything up to and including the lookup. -/
def tokenLookup (db : DB) (body : Option TokenRequest) : TokenTask :=
  match body with
  | none => .done (.json 400 "invalid_request")
  | some tokenRequest =>
    if tokenRequest.GrantType ≠ "authorization_code" then
      .done (.json 400 "unsupported_grant_type")
    else
      match db.firstAuthCode tokenRequest.Code tokenRequest.ClientID with
      | none => .done (.json 400 "invalid_grant")
      | some authCode => .found tokenRequest authCode

/-- Lines 231-252: the delete and everything after it. -/
def tokenRedeem (env : TokenEnv) (db : DB) (tokenRequest : TokenRequest)
    (authCode : AuthCode) : Response × DB :=
  let db' := (db.deleteAuthCode env.deleteFault authCode).getD db
  match env.SignedString (tokenClaims env tokenRequest) with
  | none => (.json 500 "server_error", db')
  | some tokenString =>
    (.token { AccessToken := tokenString, TokenType := "Bearer", ExpiresIn := 86400 }, db')

/-- Execute the next database statement of an in-flight token request. -/
def TokenTask.step (env : TokenEnv) (db : DB) : TokenTask → TokenTask × DB
  | .pending body => (tokenLookup db body, db)
  | .found tokenRequest authCode =>
    ((.done (tokenRedeem env db tokenRequest authCode).1),
      (tokenRedeem env db tokenRequest authCode).2)
  | .done resp => (.done resp, db)

/-- Two in-flight token requests sharing the database. -/
structure Flight where
  db : DB
  first : TokenTask
  second : TokenTask
deriving DecidableEq, Repr

/-- One scheduling decision: `false` lets the first request execute its next
statement, `true` the second. -/
def Flight.step (env₁ env₂ : TokenEnv) (s : Flight) (pick : Bool) : Flight :=
  if pick then
    { s with second := (s.second.step env₂ s.db).1, db := (s.second.step env₂ s.db).2 }
  else
    { s with first := (s.first.step env₁ s.db).1, db := (s.first.step env₁ s.db).2 }

/-- Run a schedule. -/
def Flight.run (env₁ env₂ : TokenEnv) (s : Flight) (schedule : List Bool) : Flight :=
  schedule.foldl (Flight.step env₁ env₂) s

/-! ## Sample data

The end-to-end scenario: client `C1` registered as `Demo` with redirect URI
`https://app.test/cb`, and the code `XYZ` issued to it. -/

/-- The registered demonstration client. -/
def demoClient : Client :=
  { ID := "C1", Name := "Demo", Website := "", Logo := "",
    RedirectURI := "https://app.test/cb",
    CreatedAt := ⟨0⟩, UpdatedAt := ⟨0⟩, DeletedAt := none }

/-- Database with the demonstration client and no outstanding code. -/
def demoRegistry : DB := { clients := [demoClient], authCodes := [] }

/-- Database with the demonstration client and the code `XYZ` issued to it. -/
def demoDB : DB := { clients := [demoClient], authCodes := [⟨"XYZ", "C1", ⟨0⟩⟩] }

/-- Token environment whose two clock reads fall in the same second. -/
def demoEnv : TokenEnv :=
  { expClock := ⟨5000000000⟩, iatClock := ⟨5000000700⟩, SignedString := fun _ => some "jwt",
    deleteFault := false }

/-- Token environment whose two clock reads are one nanosecond apart and
straddle a second boundary. -/
def straddleEnv : TokenEnv :=
  { expClock := ⟨1999999999⟩, iatClock := ⟨2000000000⟩, SignedString := fun _ => some "jwt",
    deleteFault := false }

/-- Token environment in which the storage layer faults on the delete. -/
def faultEnv : TokenEnv :=
  { expClock := ⟨5000000000⟩, iatClock := ⟨5000000700⟩, SignedString := fun _ => some "jwt",
    deleteFault := true }

/-- Database whose code table holds a row with the empty string as code,
issued to the demonstration client. -/
def emptyKeyDB : DB := { clients := [demoClient], authCodes := [⟨"", "C1", ⟨0⟩⟩] }

/-- The redemption request of the scenario. -/
def demoTokenRequest : TokenRequest :=
  { GrantType := "authorization_code", Code := "XYZ",
    RedirectURI := "https://app.test/cb", ClientID := "C1" }

/-! ## Lemmas about the queries -/

theorem firstAuthCode_of_holds {db : DB} {k c : String} (h : db.holds k c) :
    ∃ row, db.firstAuthCode k c = some row ∧ row.Code = k ∧ row.ClientID = c := by
  obtain ⟨row, hrow, hk, hc⟩ := h
  have hsome : (db.firstAuthCode k c).isSome := by
    unfold DB.firstAuthCode
    rw [List.find?_isSome]
    exact ⟨row, hrow, by simp [hk, hc]⟩
  obtain ⟨found, hfound⟩ := Option.isSome_iff_exists.mp hsome
  have hp := List.find?_some hfound
  simp only [Bool.and_eq_true, decide_eq_true_eq] at hp
  exact ⟨found, hfound, hp.1, hp.2⟩

theorem firstAuthCode_code {db : DB} {k c : String} {row : AuthCode}
    (h : db.firstAuthCode k c = some row) : row.Code = k ∧ row.ClientID = c := by
  have hp := List.find?_some h
  simpa only [Bool.and_eq_true, decide_eq_true_eq] using hp

theorem firstAuthCode_of_lacks {db : DB} {k : String} (h : db.lacks k) (c : String) :
    db.firstAuthCode k c = none := by
  unfold DB.firstAuthCode
  rw [List.find?_eq_none]
  intro row hrow
  simp [h row hrow]

/-- A delete that is neither refused nor hit by a fault removes the key. -/
theorem lacks_deleteAuthCode (db : DB) (authCode : AuthCode) (hkey : authCode.Code ≠ "") :
    ((db.deleteAuthCode false authCode).getD db).lacks authCode.Code := by
  intro row hrow
  simp only [DB.deleteAuthCode, Bool.false_eq_true, if_false, hkey, Option.getD_some,
    List.mem_filter, decide_eq_true_eq] at hrow
  exact hrow.2

/-- A delete, whatever its result, adds no row. -/
theorem lacks_deleteAuthCode_of_lacks {db : DB} {k : String} (h : db.lacks k)
    (fault : Bool) (authCode : AuthCode) :
    ((db.deleteAuthCode fault authCode).getD db).lacks k := by
  unfold DB.deleteAuthCode
  split
  · exact h
  · split
    · exact h
    · intro row hrow
      simp only [Option.getD_some, List.mem_filter] at hrow
      exact h row hrow.1

theorem firstAuthCode_other_client {db : DB} {k c c' : String}
    (hpk : db.codeKeysUnique) (hmem : db.holds k c) (hne : c' ≠ c) :
    db.firstAuthCode k c' = none := by
  obtain ⟨row, hrow, hk, hc⟩ := hmem
  unfold DB.firstAuthCode
  rw [List.find?_eq_none]
  intro other hother
  simp only [Bool.and_eq_true, decide_eq_true_eq, not_and]
  intro hk'
  have hinj := List.inj_on_of_nodup_map hpk hother hrow (hk'.trans hk.symm)
  rw [hinj, hc]
  exact fun h => hne h.symm

/-- The token handler, on a parsed authorization-code request whose lookup
fails, answers `invalid_grant` and leaves the database as it was. -/
theorem tokenHandler_of_lookup_none (env : TokenEnv) {db : DB} {k c : String} (r : String)
    (h : db.firstAuthCode k c = none) :
    tokenHandler env db (some ⟨"authorization_code", k, r, c⟩)
      = (.json 400 "invalid_grant", db) := by
  simp [tokenHandler, h]

/-- The token handler, on a parsed authorization-code request whose lookup
finds a row, issues the delete and answers according to the signer. -/
theorem tokenHandler_of_lookup_some (env : TokenEnv) {db : DB} {k c : String} (r : String)
    {row : AuthCode} (h : db.firstAuthCode k c = some row) :
    tokenHandler env db (some ⟨"authorization_code", k, r, c⟩)
      = match env.SignedString (tokenClaims env ⟨"authorization_code", k, r, c⟩) with
        | none =>
          (.json 500 "server_error", (db.deleteAuthCode env.deleteFault row).getD db)
        | some tokenString =>
          (.token ⟨tokenString, "Bearer", 86400⟩,
            (db.deleteAuthCode env.deleteFault row).getD db) := by
  simp [tokenHandler, h]

/-- No handler other than an approved consent adds a row to the code table. -/
theorem lacks_handle {db : DB} {k : String} (h : db.lacks k) (call : Call)
    (hcall : call.isApproval = false) : (call.handle db).2.lacks k := by
  cases call with
  | authorize query =>
    simp only [Call.handle, authorizeHandler]
    repeat (first | exact h | split)
  | consent env q =>
    simp only [Call.isApproval, decide_eq_false_iff_not] at hcall
    simp only [Call.handle, consentHandler, ne_eq, hcall, not_false_eq_true, if_true]
    exact h
  | token env body =>
    simp only [Call.handle, tokenHandler]
    repeat (first | exact h | exact lacks_deleteAuthCode_of_lacks h _ _ | split)

theorem lacks_serve {k : String} (calls : List Call) :
    ∀ {db : DB}, db.lacks k → (∀ call ∈ calls, call.isApproval = false) →
      (serve db calls).lacks k := by
  induction calls with
  | nil => intro db h _; exact h
  | cons call rest ih =>
    intro db h hall
    simp only [serve, List.foldl_cons]
    exact ih (lacks_handle h call (hall call (List.mem_cons_self _ _)))
      (fun x hx => hall x (List.mem_cons_of_mem _ hx))

theorem firstClient_of_mem {db : DB} {c : Client} (hpk : db.clientKeysUnique)
    (hc : c ∈ db.clients) :
    db.firstClient c.ID = if c.DeletedAt = none then some c else none := by
  unfold DB.firstClient
  split
  · next hlive =>
    have hsome : (db.clients.find?
        (fun row => decide (row.ID = c.ID) && row.DeletedAt.isNone)).isSome := by
      rw [List.find?_isSome]
      exact ⟨c, hc, by simp [hlive]⟩
    obtain ⟨found, hfound⟩ := Option.isSome_iff_exists.mp hsome
    have hp := List.find?_some hfound
    simp only [Bool.and_eq_true, decide_eq_true_eq] at hp
    have hinj := List.inj_on_of_nodup_map hpk (List.mem_of_find?_eq_some hfound) hc hp.1
    rw [hfound, hinj]
  · next hdead =>
    rw [List.find?_eq_none]
    intro other hother
    simp only [Bool.and_eq_true, decide_eq_true_eq, not_and]
    intro hid
    have hinj := List.inj_on_of_nodup_map hpk hother hc hid
    rw [hinj]
    simpa [Option.isNone_iff_eq_none] using hdead

theorem firstClient_of_unknown {db : DB} {id : String}
    (h : ∀ row ∈ db.clients, row.DeletedAt = none → row.ID ≠ id) :
    db.firstClient id = none := by
  unfold DB.firstClient
  rw [List.find?_eq_none]
  intro row hrow
  simp only [Bool.and_eq_true, decide_eq_true_eq, not_and, Option.isNone_iff_eq_none]
  intro hid hlive
  exact h row hrow hlive hid

theorem createAuthCode_of_lacks {db : DB} {k : String} (h : db.lacks k) (c : String)
    (now : Time) :
    db.createAuthCode false ⟨k, c, now⟩
      = some { db with authCodes := db.authCodes ++ [⟨k, c, now⟩] } := by
  have hany : db.authCodes.any (fun row => decide (row.Code = k)) = false := by
    rw [List.any_eq_false]
    intro row hrow
    simpa using h row hrow
  simp [DB.createAuthCode, hany]

theorem holds_createAuthCode (db : DB) (k c : String) (now : Time) :
    DB.holds { db with authCodes := db.authCodes ++ [⟨k, c, now⟩] } k c :=
  ⟨⟨k, c, now⟩, by simp, rfl, rfl⟩

theorem unix_add_day (t : Time) : (t.Add (Hour * 24)).Unix = t.Unix + 86400 := by
  have h : t.nanos + Hour * 24 = t.nanos + 86400 * 1000000000 := by
    simp only [Hour]; norm_num
  simp only [Time.Add, Time.Unix, h]
  exact Int.add_mul_ediv_right _ _ (by norm_num)

/-- Executing both statements of a pending token request back to back is the
token handler. -/
theorem tokenTask_two_steps (env : TokenEnv) (db : DB) (body : Option TokenRequest) :
    ((TokenTask.pending body).step env db).1.step env ((TokenTask.pending body).step env db).2
      = (.done (tokenHandler env db body).1, (tokenHandler env db body).2) := by
  cases body with
  | none => rfl
  | some req =>
    by_cases hgt : req.GrantType = "authorization_code"
    · cases hlook : db.firstAuthCode req.Code req.ClientID with
      | none => simp [TokenTask.step, tokenLookup, tokenHandler, hgt, hlook]
      | some row =>
        cases hs : env.SignedString (tokenClaims env req) <;>
          simp [TokenTask.step, tokenLookup, tokenHandler, tokenRedeem, hgt, hlook, hs]
    · simp [TokenTask.step, tokenLookup, tokenHandler, hgt]

/-- The success shape of the token handler: when the lookup finds `row` and
the signer returns `tok`, the response is the 200 token body, the signed
`client_id` is the client the code was issued to, `iat` is the second clock
read and `exp` is the first clock read plus 86400, both in Unix seconds. -/
theorem tokenHandler_success (env : TokenEnv) (db : DB) (req : TokenRequest)
    (row : AuthCode) (tok : String)
    (hgt : req.GrantType = "authorization_code")
    (hfirst : db.firstAuthCode req.Code req.ClientID = some row)
    (hsign : env.SignedString (tokenClaims env req) = some tok) :
    tokenHandler env db (some req)
        = (.token ⟨tok, "Bearer", 86400⟩, (db.deleteAuthCode env.deleteFault row).getD db)
    ∧ (tokenClaims env req).client_id = row.ClientID
    ∧ (tokenClaims env req).iat = env.iatClock.Unix
    ∧ (tokenClaims env req).exp = env.expClock.Unix + 86400 := by
  refine ⟨?_, (firstAuthCode_code hfirst).2.symm, rfl, unix_add_day _⟩
  simp [tokenHandler, hgt, hfirst, hsign]

/-- The interleaving lookup, lookup, delete, delete lets both of two identical
token requests succeed, whatever the database, as long as it holds the code
and both signers return a token. -/
theorem flight_interleaved_both_succeed (env₁ env₂ : TokenEnv) (db : DB)
    (req : TokenRequest) (tok₁ tok₂ : String)
    (hgt : req.GrantType = "authorization_code")
    (hmem : db.holds req.Code req.ClientID)
    (h₁ : env₁.SignedString (tokenClaims env₁ req) = some tok₁)
    (h₂ : env₂.SignedString (tokenClaims env₂ req) = some tok₂) :
    (Flight.run env₁ env₂ ⟨db, .pending (some req), .pending (some req)⟩
        [false, true, false, true]).first = .done (.token ⟨tok₁, "Bearer", 86400⟩)
    ∧ (Flight.run env₁ env₂ ⟨db, .pending (some req), .pending (some req)⟩
        [false, true, false, true]).second = .done (.token ⟨tok₂, "Bearer", 86400⟩) := by
  obtain ⟨row, hfirst, _, _⟩ := firstAuthCode_of_holds hmem
  simp [Flight.run, Flight.step, TokenTask.step, tokenLookup, tokenRedeem, hgt, hfirst, h₁, h₂]

/-- The schedule that runs the first request to completion before the second
starts is the sequential composition of the token handler with itself. -/
theorem flight_sequential (env₁ env₂ : TokenEnv) (db : DB) (b₁ b₂ : Option TokenRequest) :
    Flight.run env₁ env₂ ⟨db, .pending b₁, .pending b₂⟩ [false, false, true, true]
      = ⟨(tokenHandler env₂ (tokenHandler env₁ db b₁).2 b₂).2,
          .done (tokenHandler env₁ db b₁).1,
          .done (tokenHandler env₂ (tokenHandler env₁ db b₁).2 b₂).1⟩ := by
  have e₁ := tokenTask_two_steps env₁ db b₁
  have e₂ := tokenTask_two_steps env₂ (tokenHandler env₁ db b₁).2 b₂
  simp only [Flight.run, List.foldl_cons, List.foldl_nil, Flight.step, Bool.false_eq_true,
    if_false, if_true, e₁]
  simp only [e₂]

/-- Single use when the delete takes effect.  For every database whose code
table holds `(k, c)` with `k` not the empty string, and no storage fault on
the delete, the token handler answers a parsed request with grant type
`authorization_code`, code `k` and client `c` (signer returning `tok`) with
the 200 token response, and the resulting code table holds no row with code
`k`; after any further requests that are not consent approvals, every
authorization-code request for `k`, from any client, is answered
400 `invalid_grant`. -/
theorem token_single_use_of_delete (env : TokenEnv) (db : DB) (k c r tok : String)
    (hmem : db.holds k c) (hkey : k ≠ "") (hdel : env.deleteFault = false)
    (hsign : env.SignedString (tokenClaims env ⟨"authorization_code", k, r, c⟩) = some tok) :
    (tokenHandler env db (some ⟨"authorization_code", k, r, c⟩)).1
        = .token ⟨tok, "Bearer", 86400⟩
    ∧ (tokenHandler env db (some ⟨"authorization_code", k, r, c⟩)).1.status = 200
    ∧ (tokenHandler env db (some ⟨"authorization_code", k, r, c⟩)).2.lacks k
    ∧ ∀ (between : List Call) (env' : TokenEnv) (r' c' : String),
        (∀ call ∈ between, call.isApproval = false) →
        tokenHandler env'
            (serve (tokenHandler env db (some ⟨"authorization_code", k, r, c⟩)).2 between)
            (some ⟨"authorization_code", k, r', c'⟩)
          = (.json 400 "invalid_grant",
              serve (tokenHandler env db (some ⟨"authorization_code", k, r, c⟩)).2 between) := by
  obtain ⟨row, hfirst, hk, _⟩ := firstAuthCode_of_holds hmem
  have hrun := tokenHandler_of_lookup_some env r hfirst
  rw [hsign, hdel] at hrun
  have hlacks : ((db.deleteAuthCode false row).getD db).lacks k := by
    have h := lacks_deleteAuthCode db row (hk ▸ hkey)
    rwa [hk] at h
  rw [hrun]
  refine ⟨rfl, rfl, hlacks, ?_⟩
  intro between env' r' c' hall
  exact tokenHandler_of_lookup_none env' r'
    (firstAuthCode_of_lacks (lacks_serve between hlacks hall) c')

/-! ## Theorems -/

/-- C1. Evaluation of redemptions whose delete does not take effect.  The
handler issues the delete of line 232 and does not look at its result.
(a) With the row `("", C1)` in the code table, the delete of the found row is
refused (its primary key is the zero value): the request is answered by the
200 token response, the table still holds the row, and the same request is
answered by the 200 token response again.
(b) With the row `(XYZ, C1)` and a storage fault on the delete, likewise: 200,
the row is still there, and a second redemption of `XYZ` gets 200 as well.
So "the store no longer contains `k`" and "every later request with `k` is
answered 400 `invalid_grant`" do not hold there. -/
theorem token_redeemed_twice :
    tokenHandler demoEnv emptyKeyDB (some ⟨"authorization_code", "", "r", "C1"⟩)
        = (.token ⟨"jwt", "Bearer", 86400⟩, emptyKeyDB)
    ∧ (tokenHandler demoEnv
        (tokenHandler demoEnv emptyKeyDB (some ⟨"authorization_code", "", "r", "C1"⟩)).2
        (some ⟨"authorization_code", "", "r", "C1"⟩)).1
        = .token ⟨"jwt", "Bearer", 86400⟩
    ∧ tokenHandler faultEnv demoDB (some demoTokenRequest)
        = (.token ⟨"jwt", "Bearer", 86400⟩, demoDB)
    ∧ (tokenHandler demoEnv
        (tokenHandler faultEnv demoDB (some demoTokenRequest)).2
        (some demoTokenRequest)).1
        = .token ⟨"jwt", "Bearer", 86400⟩ := by
  decide

/-- C2. Client binding.  For every database whose code table (with its
primary key) holds `(k, c)`, a parsed authorization-code request for `k` from
a client `c'` other than `c` is answered 400 `invalid_grant`, which is not a
token response, and the database is returned unchanged; the code `k` is then
still redeemed by `c`. -/
theorem token_client_binding (env : TokenEnv) (db : DB) (k c c' r : String)
    (hpk : db.codeKeysUnique) (hmem : db.holds k c) (hne : c' ≠ c) :
    tokenHandler env db (some ⟨"authorization_code", k, r, c'⟩)
        = (.json 400 "invalid_grant", db)
    ∧ (tokenHandler env db (some ⟨"authorization_code", k, r, c'⟩)).1.isToken = false
    ∧ (tokenHandler env db (some ⟨"authorization_code", k, r, c'⟩)).2.holds k c
    ∧ ∀ (env₂ : TokenEnv) (r₂ tok : String),
        env₂.SignedString (tokenClaims env₂ ⟨"authorization_code", k, r₂, c⟩) = some tok →
        (tokenHandler env₂ (tokenHandler env db (some ⟨"authorization_code", k, r, c'⟩)).2
            (some ⟨"authorization_code", k, r₂, c⟩)).1
          = .token ⟨tok, "Bearer", 86400⟩ := by
  have hrun := tokenHandler_of_lookup_none env r (firstAuthCode_other_client hpk hmem hne)
  rw [hrun]
  refine ⟨rfl, rfl, hmem, ?_⟩
  intro env₂ r₂ tok hsign
  obtain ⟨row, hfirst, _, _⟩ := firstAuthCode_of_holds hmem
  have h₂ := tokenHandler_of_lookup_some env₂ r₂ hfirst
  rw [hsign] at h₂
  rw [h₂]

/-- Witness for C2 on the scenario: `XYZ` was issued to `C1` and is presented
by `C2`. -/
theorem token_client_binding_witness :
    demoDB.codeKeysUnique ∧ demoDB.holds "XYZ" "C1" ∧ "C2" ≠ "C1"
    ∧ tokenHandler demoEnv demoDB (some ⟨"authorization_code", "XYZ", "r", "C2"⟩)
        = (.json 400 "invalid_grant", demoDB) :=
  ⟨by decide, (by decide), by decide,
    (token_client_binding demoEnv demoDB "XYZ" "C1" "C2" "r" (by decide)
      (by decide) (by decide)).1⟩

/-- C3. Evaluation of two concurrent redemptions of the same code.  With the
code `XYZ` issued to `C1` in the table and two identical token requests in
flight, the schedule lookup (first), lookup (second), delete (first), delete
(second) ends with both requests answered by the 200 token response: the
lookup of line 225 and the delete of line 232 are separate statements, so
"at most one success" does not hold. -/
theorem token_concurrent_double_redeem :
    Flight.run demoEnv straddleEnv
        ⟨demoDB, .pending (some demoTokenRequest), .pending (some demoTokenRequest)⟩
        [false, true, false, true]
      = ⟨demoRegistry,
          .done (.token ⟨"jwt", "Bearer", 86400⟩),
          .done (.token ⟨"jwt", "Bearer", 86400⟩)⟩ := by
  decide

/-- C4. Exact redirect-URI matching.  For every client table (with its
primary key), every row `c` in it and every parsed request with
`response_type = "code"` and `client_id = c.ID`: when the `redirect_uri` is
not string-equal to `c.RedirectURI` the handler answers an error with status
401, renders nothing and returns the database unchanged; when it is
string-equal and `c` is live (not tombstoned) the consent template is rendered
with (client name, client_id, redirect_uri, state, scope). -/
theorem authorize_exact_redirect (db : DB) (c : Client) (req : AuthRequest)
    (hpk : db.clientKeysUnique) (hc : c ∈ db.clients)
    (hrt : req.ResponseType = "code") (hid : req.ClientID = c.ID) :
    (req.RedirectURI ≠ c.RedirectURI →
        (authorizeHandler db (some req)).1.status = 401
        ∧ (∃ e, (authorizeHandler db (some req)).1 = .json 401 e)
        ∧ (authorizeHandler db (some req)).1.isRender = false
        ∧ (authorizeHandler db (some req)).2 = db)
    ∧ (req.RedirectURI = c.RedirectURI → c.DeletedAt = none →
        authorizeHandler db (some req)
          = (.render "consent" ⟨c.Name, c.ID, c.RedirectURI, req.State, req.Scope⟩, db)) := by
  have hfirst := firstClient_of_mem hpk hc
  constructor
  · intro hne
    by_cases hlive : c.DeletedAt = none
    · have hrun : authorizeHandler db (some req) = (.json 401 "Invalid redirect URI", db) := by
        simp [authorizeHandler, hrt, hid, hfirst, hlive, Ne.symm hne]
      rw [hrun]
      exact ⟨rfl, ⟨_, rfl⟩, rfl, rfl⟩
    · have hrun : authorizeHandler db (some req) = (.json 401 "Client not found", db) := by
        simp [authorizeHandler, hrt, hid, hfirst, hlive]
      rw [hrun]
      exact ⟨rfl, ⟨_, rfl⟩, rfl, rfl⟩
  · intro heq hlive
    simp [authorizeHandler, hrt, hid, hfirst, hlive, heq]

/-- Witness for C4 on the scenario: a proper prefix of the registered URI is
refused, the registered URI itself reaches the consent prompt. -/
theorem authorize_exact_redirect_witness :
    demoRegistry.clientKeysUnique ∧ demoClient ∈ demoRegistry.clients
    ∧ (authorizeHandler demoRegistry
        (some ⟨"C1", "https://app.test/c", "code", "read", "S1"⟩)).1.status = 401
    ∧ authorizeHandler demoRegistry (some ⟨"C1", "https://app.test/cb", "code", "read", "S1"⟩)
        = (.render "consent" ⟨"Demo", "C1", "https://app.test/cb", "S1", "read"⟩,
            demoRegistry) :=
  ⟨by decide, by decide,
    ((authorize_exact_redirect demoRegistry demoClient
        ⟨"C1", "https://app.test/c", "code", "read", "S1"⟩
        (by decide) (by decide) rfl rfl).1 (by decide)).1,
    (authorize_exact_redirect demoRegistry demoClient
        ⟨"C1", "https://app.test/cb", "code", "read", "S1"⟩
        (by decide) (by decide) rfl rfl).2 rfl rfl⟩

/-- C5. For every parsed authorize request whose `response_type` is not
exactly `"code"`, the handler answers 400 `unsupported_response_type` and
returns the database unchanged; the response is the same for every content of
the database, so for registered and unregistered `client_id` alike. -/
theorem authorize_unsupported_response_type (db : DB) (req : AuthRequest)
    (hrt : req.ResponseType ≠ "code") :
    authorizeHandler db (some req) = (.json 400 "unsupported_response_type", db)
    ∧ ∀ db₂ : DB, (authorizeHandler db₂ (some req)).1 = (authorizeHandler db (some req)).1 := by
  have hrun : ∀ d : DB,
      authorizeHandler d (some req) = (.json 400 "unsupported_response_type", d) := by
    intro d
    simp [authorizeHandler, hrt]
  refine ⟨hrun db, ?_⟩
  intro db₂
  rw [hrun db₂, hrun db]

/-- Witness for C5: `response_type = "token"` for the registered client of
the scenario. -/
theorem authorize_unsupported_response_type_witness :
    ("token" : String) ≠ "code"
    ∧ authorizeHandler demoRegistry (some ⟨"C1", "https://app.test/cb", "token", "", "S1"⟩)
        = (.json 400 "unsupported_response_type", demoRegistry) :=
  ⟨by decide,
    (authorize_unsupported_response_type demoRegistry
      ⟨"C1", "https://app.test/cb", "token", "", "S1"⟩ (by decide)).1⟩

/-- C6. Consent approval.  For every consent request with `approved = "true"`
for which code generation yields `k`: if `k` is not in the code table and the
storage layer does not fault, the database afterwards is the database before
with exactly the row `AuthCode{k, client_id, now}` added to the code table,
and the response is the redirect to
`redirect_uri ++ "?code=" ++ k ++ "&state=" ++ state`; if the write fails, the
response is the 500 error, not a redirect, and the database is unchanged. -/
theorem consent_approval (env : ConsentEnv) (db : DB) (q : ConsentQuery) (k : String)
    (happ : q.approved = "true") (hgen : env.NewCrypto = some k) :
    (db.lacks k → env.storageFault = false →
        consentHandler env db q
          = (.redirect (q.redirect_uri ++ "?code=" ++ k ++ "&state=" ++ q.state),
              { clients := db.clients,
                authCodes := db.authCodes ++ [⟨k, q.client_id, env.Now⟩] }))
    ∧ (db.createAuthCode env.storageFault ⟨k, q.client_id, env.Now⟩ = none →
        consentHandler env db q = (.json 500 "Failed to store authorization code", db)
        ∧ (consentHandler env db q).1.status = 500
        ∧ (consentHandler env db q).1.isRedirect = false) := by
  constructor
  · intro hfresh hok
    have hcreate := createAuthCode_of_lacks hfresh q.client_id env.Now
    simp [consentHandler, happ, hgen, hok, hcreate]
  · intro hfail
    have hrun : consentHandler env db q
        = (.json 500 "Failed to store authorization code", db) := by
      simp [consentHandler, happ, hgen, hfail]
    rw [hrun]
    exact ⟨rfl, rfl, rfl⟩

/-- Witness for C6 on the scenario: approval with generated code `XYZ`, once
with a working store and once with a faulting one. -/
theorem consent_approval_witness :
    consentHandler ⟨some "XYZ", ⟨0⟩, false⟩ demoRegistry
        ⟨"true", "S1", "C1", "https://app.test/cb"⟩
      = (.redirect "https://app.test/cb?code=XYZ&state=S1", demoDB)
    ∧ consentHandler ⟨some "XYZ", ⟨0⟩, true⟩ demoRegistry
        ⟨"true", "S1", "C1", "https://app.test/cb"⟩
      = (.json 500 "Failed to store authorization code", demoRegistry) :=
  ⟨(consent_approval ⟨some "XYZ", ⟨0⟩, false⟩ demoRegistry
      ⟨"true", "S1", "C1", "https://app.test/cb"⟩ "XYZ" rfl rfl).1
      (by decide) rfl,
    ((consent_approval ⟨some "XYZ", ⟨0⟩, true⟩ demoRegistry
      ⟨"true", "S1", "C1", "https://app.test/cb"⟩ "XYZ" rfl rfl).2 rfl).1⟩

/-- C7. Consent denial.  For every consent request whose `approved` is not
exactly `"true"`, the response is the redirect to
`redirect_uri ++ "?error=access_denied&state=" ++ state`, the database is
returned unchanged, and a following authorization-code token request with any
code that was not in the code table is answered 400 `invalid_grant`. -/
theorem consent_denial (env : ConsentEnv) (db : DB) (q : ConsentQuery)
    (hden : q.approved ≠ "true") :
    consentHandler env db q
        = (.redirect (q.redirect_uri ++ "?error=access_denied&state=" ++ q.state), db)
    ∧ ∀ (tenv : TokenEnv) (code r c : String), db.lacks code →
        tokenHandler tenv (consentHandler env db q).2 (some ⟨"authorization_code", code, r, c⟩)
          = (.json 400 "invalid_grant", db) := by
  have hrun : consentHandler env db q
      = (.redirect (q.redirect_uri ++ "?error=access_denied&state=" ++ q.state), db) := by
    simp [consentHandler, hden]
  refine ⟨hrun, ?_⟩
  intro tenv code r c hfresh
  rw [hrun]
  exact tokenHandler_of_lookup_none tenv r (firstAuthCode_of_lacks hfresh c)

/-- Witness for C7 on the scenario: `approved = "True"` is a denial, and the
guessed code `GUESS` is then refused. -/
theorem consent_denial_witness :
    ("True" : String) ≠ "true"
    ∧ consentHandler ⟨some "N", ⟨0⟩, false⟩ demoDB ⟨"True", "S1", "C1", "https://app.test/cb"⟩
        = (.redirect "https://app.test/cb?error=access_denied&state=S1", demoDB)
    ∧ tokenHandler demoEnv
        (consentHandler ⟨some "N", ⟨0⟩, false⟩ demoDB
          ⟨"True", "S1", "C1", "https://app.test/cb"⟩).2
        (some ⟨"authorization_code", "GUESS", "https://app.test/cb", "C1"⟩)
        = (.json 400 "invalid_grant", demoDB) :=
  have h := consent_denial ⟨some "N", ⟨0⟩, false⟩ demoDB
    ⟨"True", "S1", "C1", "https://app.test/cb"⟩ (by decide)
  ⟨by decide, h.1,
    h.2 demoEnv "GUESS" "https://app.test/cb" "C1" (by decide)⟩

/-- C8. Evaluation of a successful redemption whose two clock reads straddle
a second boundary (first read 1.999999999 s, second read 2.000000000 s): the
response is 200 with `token_type = "Bearer"` and `expires_in = 86400`, the
signed claims are `client_id = "C1"`, `iat = 2` and `exp = 86401`, so `exp` is
`iat + 86399`, not `iat + 86400`. -/
theorem token_expiry_straddle :
    tokenHandler straddleEnv demoDB (some demoTokenRequest)
        = (.token ⟨"jwt", "Bearer", 86400⟩, demoRegistry)
    ∧ tokenClaims straddleEnv demoTokenRequest = ⟨"C1", 86401, 2⟩
    ∧ (tokenClaims straddleEnv demoTokenRequest).exp
        ≠ (tokenClaims straddleEnv demoTokenRequest).iat + 86400 := by
  decide

/-- C9 (as stated, refuted).  With no client `C0` registered, a request with
`response_type = "code"` and `client_id = "C0"` is answered 401 with the error
string `Client not found`, which is not the error code `invalid_client`. -/
theorem authorize_unknown_client_not_invalid_client :
    (∀ row ∈ demoRegistry.clients, row.DeletedAt = none → row.ID ≠ "C0")
    ∧ (authorizeHandler demoRegistry
        (some ⟨"C0", "https://app.test/cb", "code", "", "S1"⟩)).1
        = .json 401 "Client not found"
    ∧ (authorizeHandler demoRegistry
        (some ⟨"C0", "https://app.test/cb", "code", "", "S1"⟩)).1
        ≠ .json 401 "invalid_client" := by
  decide

/-- C9 (amended).  For every client table and every parsed request with
`response_type = "code"` whose `client_id` is not the key of any live row,
the handler answers status 401 with the error string `Client not found`, for
every `redirect_uri`, renders nothing, and returns the database unchanged. -/
theorem authorize_unknown_client (db : DB) (req : AuthRequest)
    (hrt : req.ResponseType = "code")
    (hunk : ∀ row ∈ db.clients, row.DeletedAt = none → row.ID ≠ req.ClientID) :
    authorizeHandler db (some req) = (.json 401 "Client not found", db)
    ∧ (authorizeHandler db (some req)).1.status = 401
    ∧ (authorizeHandler db (some req)).1.isRender = false := by
  have hrun : authorizeHandler db (some req) = (.json 401 "Client not found", db) := by
    simp [authorizeHandler, hrt, firstClient_of_unknown hunk]
  rw [hrun]
  exact ⟨rfl, rfl, rfl⟩

/-- Witness for C9 (amended): client `C0` against the scenario registry. -/
theorem authorize_unknown_client_witness :
    (∀ row ∈ demoRegistry.clients, row.DeletedAt = none → row.ID ≠ "C0")
    ∧ authorizeHandler demoRegistry (some ⟨"C0", "https://evil.test/", "code", "", "S1"⟩)
        = (.json 401 "Client not found", demoRegistry) :=
  ⟨by decide,
    (authorize_unknown_client demoRegistry ⟨"C0", "https://evil.test/", "code", "", "S1"⟩
      rfl (by decide)).1⟩

/-- C10. The token handler never uses the request's `redirect_uri`.  For
every environment, database and parsed token request, replacing the
`redirect_uri` by any other string changes neither the response and
resulting database nor the claims that are signed; in particular a code
issued by an approved consent is redeemed with every `redirect_uri`, so also
with one different from the consent request's and from the registered one. -/
theorem token_ignores_redirect_uri (env : TokenEnv) (db : DB) (req : TokenRequest)
    (r' : String) :
    tokenHandler env db (some { req with RedirectURI := r' }) = tokenHandler env db (some req)
    ∧ tokenClaims env { req with RedirectURI := r' } = tokenClaims env req
    ∧ ∀ (cenv : ConsentEnv) (q : ConsentQuery) (k tok : String),
        q.approved = "true" → cenv.NewCrypto = some k → db.lacks k →
        cenv.storageFault = false →
        env.SignedString (tokenClaims env ⟨"authorization_code", k, r', q.client_id⟩)
          = some tok →
        (tokenHandler env (consentHandler cenv db q).2
            (some ⟨"authorization_code", k, r', q.client_id⟩)).1
          = .token ⟨tok, "Bearer", 86400⟩ := by
  refine ⟨rfl, rfl, ?_⟩
  intro cenv q k tok happ hgen hfresh hok hsign
  have hcreate := createAuthCode_of_lacks hfresh q.client_id cenv.Now
  have hdb : (consentHandler cenv db q).2
      = { clients := db.clients,
          authCodes := db.authCodes ++ [⟨k, q.client_id, cenv.Now⟩] } := by
    simp [consentHandler, happ, hgen, hok, hcreate]
  obtain ⟨row, hfirst, _, _⟩ :=
    firstAuthCode_of_holds (holds_createAuthCode db k q.client_id cenv.Now)
  rw [hdb, tokenHandler_of_lookup_some env r' hfirst, hsign]

/-- Witness for C10 on the scenario: the code issued for
`https://app.test/cb` is redeemed with `https://evil.test/`. -/
theorem token_ignores_redirect_uri_witness :
    tokenHandler demoEnv demoDB (some { demoTokenRequest with RedirectURI := "https://evil.test/" })
        = tokenHandler demoEnv demoDB (some demoTokenRequest)
    ∧ "https://evil.test/" ≠ "https://app.test/cb"
    ∧ (tokenHandler demoEnv
        (consentHandler ⟨some "XYZ", ⟨0⟩, false⟩ demoRegistry
          ⟨"true", "S1", "C1", "https://app.test/cb"⟩).2
        (some ⟨"authorization_code", "XYZ", "https://evil.test/", "C1"⟩)).1
        = .token ⟨"jwt", "Bearer", 86400⟩ :=
  have h := token_ignores_redirect_uri demoEnv demoRegistry demoTokenRequest "https://evil.test/"
  ⟨(token_ignores_redirect_uri demoEnv demoDB demoTokenRequest "https://evil.test/").1,
    by decide,
    h.2.2 ⟨some "XYZ", ⟨0⟩, false⟩ ⟨"true", "S1", "C1", "https://app.test/cb"⟩ "XYZ" "jwt"
      rfl rfl (by decide) rfl rfl⟩

end AuthServer
